import Mathlib

/-!
Shallow embedding of src/GCS_utils.py, a client for a bucket-oriented object
store. Python strings are embedded as lists of characters; every remote call a
function issues is recorded in order; the store is an oracle assigning each
call a status code and each listing its item names. The local filesystem is a
map from paths to what they hold. Host path conventions are POSIX.
-/

/-- Python strings, embedded as lists of characters. -/
abbrev PyStr := List Char

/-- Test whether a Python string ends with the character c, as s.endswith(c). -/
def endsWithChar (s : PyStr) (c : Char) : Bool := s.getLast? == some c

/-- Test whether a Python string starts with a slash. -/
def startsWithSlash (s : PyStr) : Bool := s.head? == some '/'

/-- Folder-path normalization shared by list_folder_contents, create_folder and
delete_folder (GCS_utils.py lines 54-56, 73-75, 280-282): append a slash unless
the path already ends with one. -/
def ensureSlash (p : PyStr) : PyStr :=
if !endsWithChar p '/' then p ++ ['/'] else p

/-- Base-path normalization of upload_directory (lines 162-164): append a slash
only when the path is nonempty and does not already end with one. -/
def normBasePath (p : PyStr) : PyStr :=
if !p.isEmpty && !endsWithChar p '/' then p ++ ['/'] else p

/-- Remote-key construction of upload_directory (lines 162-164 with 200-203):
the normalized base path concatenated with the relative segment. -/
def joinKey (base seg : PyStr) : PyStr := normBasePath base ++ seg

/-- Whether two adjacent characters of the string are both slashes. -/
def hasDoubleSlash : PyStr → Bool
  | [] => false
  | _ :: [] => false
  | a :: b :: rest => (a == '/' && b == '/') || hasDoubleSlash (b :: rest)

/-- Absence of a double slash anywhere in the string. -/
def noDoubleSlash (s : PyStr) : Prop := hasDoubleSlash s = false

instance (s : PyStr) : Decidable (noDoubleSlash s) :=
inferInstanceAs (Decidable (hasDoubleSlash s = false))

/-- A string ending with exactly one trailing slash: its last character is a
slash and the character before it, when present, is not. -/
def exactlyOneTrailingSlash (s : PyStr) : Prop :=
s.getLast? = some '/' ∧ s.dropLast.getLast? ≠ some '/'

instance (s : PyStr) : Decidable (exactlyOneTrailingSlash s) :=
inferInstanceAs (Decidable (s.getLast? = some '/' ∧ s.dropLast.getLast? ≠ some '/'))

/-- Remote calls issued against the store, in the order the code issues them. -/
inductive RemoteCall where
  | listObjects (pre : PyStr)
  | createFolder (key : PyStr)
  | uploadObject (key : PyStr)
  | deleteObject (key : PyStr)
deriving DecidableEq

/-- Errors raised by the Python functions: FileNotFoundError (upload_file line
114), NotADirectoryError (upload_directory line 160), and the generic Exception
raised when the store answers with a non-success status. -/
inductive Err where
  | fileNotFound (p : PyStr)
  | notADirectory (p : PyStr)
  | remoteFailed (status : Nat)
deriving DecidableEq

/-- Result of a Python call: a returned value or a raised exception. -/
inductive PyResult (α : Type) where
  | ok (val : α)
  | exn (e : Err)
deriving DecidableEq

/-- Whether a call returned normally. -/
def PyResult.isOk {α : Type} : PyResult α → Bool
  | .ok _ => true
  | .exn _ => false

/-- The remote store as an oracle: a status code for every call, and the item
names a successful listing returns for a given prefix value. -/
structure Store where
  status : RemoteCall → Nat
  items : PyStr → List PyStr

/-- A local directory entry: a regular file, or a subdirectory with its
children. The tree is a consistent snapshot of the walked directory. -/
inductive Entry where
  | file (name : PyStr)
  | dir (name : PyStr) (children : List Entry)

/-- What the local filesystem holds at a path: a regular file, a directory with
its children, or nothing (os.path.isfile / os.path.isdir both false). -/
inductive PathKind where
  | file
  | directory (children : List Entry)
  | missing

/-- The local filesystem, mapping each path to what it holds. -/
def FS := PyStr → PathKind

/-- list_bucket_contents (lines 7-40): GET the object list under the prefix; a
200 answer yields the item names, anything else raises. -/
def list_bucket_contents (s : Store) (pre : PyStr) :
    PyResult (List PyStr) × List RemoteCall :=
((if s.status (.listObjects pre) = 200 then .ok (s.items pre)
  else .exn (.remoteFailed (s.status (.listObjects pre)))),
 [.listObjects pre])

/-- create_folder (lines 60-98): normalize the folder path, POST a zero-byte
object under that name; 200 or 201 succeed, anything else raises. -/
def create_folder (s : Store) (p : PyStr) : PyResult PyStr × List RemoteCall :=
((if s.status (.createFolder (ensureSlash p)) = 200 ∨
     s.status (.createFolder (ensureSlash p)) = 201 then .ok (ensureSlash p)
  else .exn (.remoteFailed (s.status (.createFolder (ensureSlash p))))),
 [.createFolder (ensureSlash p)])

/-- upload_file (lines 100-144): raise FileNotFoundError when the local path is
not a regular file, before any remote call; otherwise POST the object bytes,
with 200 or 201 succeeding and anything else raising. The returned value stands
for the response metadata, keyed by the created object's name. -/
def upload_file (fs : FS) (s : Store) (localPath gcsPath : PyStr) :
    PyResult PyStr × List RemoteCall :=
match fs localPath with
| .file =>
  ((if s.status (.uploadObject gcsPath) = 200 ∨
       s.status (.uploadObject gcsPath) = 201 then .ok gcsPath
    else .exn (.remoteFailed (s.status (.uploadObject gcsPath)))),
   [.uploadObject gcsPath])
| _ => (.exn (.fileNotFound localPath), [])

/-- delete_file (lines 242-266): DELETE the object and report success exactly
when the store answers 200 or 204; never raises. -/
def delete_file (s : Store) (key : PyStr) : Bool × List RemoteCall :=
(decide (s.status (.deleteObject key) = 200 ∨
         s.status (.deleteObject key) = 204),
 [.deleteObject key])

/-- Names of the subdirectories among a directory's entries, in order: the dirs
list of an os.walk triple. -/
def dirNames : List Entry → List PyStr
  | [] => []
  | .file _ :: rest => dirNames rest
  | .dir n _ :: rest => n :: dirNames rest

/-- Names of the regular files among a directory's entries, in order: the files
list of an os.walk triple. -/
def fileNames : List Entry → List PyStr
  | [] => []
  | .file n :: rest => n :: fileNames rest
  | .dir _ _ :: rest => fileNames rest

/-- os.path.join for local paths on a POSIX host: insert a slash unless the
root already ends with one. -/
def joinLocal (root name : PyStr) : PyStr :=
if endsWithChar root '/' then root ++ name else root ++ ['/'] ++ name

/-- Relative-path accounting of os.path.relpath(root, top) during the walk: the
empty string at the top directory, slash-joined names below it (line 179-181
maps the relpath result "." to the empty string). -/
def joinRel (rel name : PyStr) : PyStr :=
if rel.isEmpty then name else rel ++ ['/'] ++ name

/-- One triple yielded by os.walk: the walked directory's local path, its path
relative to the walked top (empty at the top), and its dirs and files lists. -/
structure WalkEntry where
  localRoot : PyStr
  relPath : PyStr
  dirs : List PyStr
  files : List PyStr

mutual

/-- Top-down os.walk (line 177) over a snapshot of the tree: yield the triple
for the current directory, then walk each subdirectory in order. -/
def walk (lr rel : PyStr) (children : List Entry) : List WalkEntry :=
⟨lr, rel, dirNames children, fileNames children⟩ :: walkSubs lr rel children
termination_by (sizeOf children, 1)

/-- Walks of the subdirectories among the given entries, in order. -/
def walkSubs (lr rel : PyStr) (l : List Entry) : List WalkEntry :=
match l with
| [] => []
| .file _ :: rest => walkSubs lr rel rest
| .dir n cs :: rest => walk (joinLocal lr n) (joinRel rel n) cs ++ walkSubs lr rel rest
termination_by (sizeOf l, 0)

end

/-- Remote folder key built for a subdirectory of the walk (lines 184-188). -/
def folderKey (base rel d : PyStr) : PyStr :=
if !rel.isEmpty then base ++ rel ++ ['/'] ++ d ++ ['/'] else base ++ d ++ ['/']

/-- Remote object key built for a file of the walk (lines 200-203). -/
def fileKey (base rel f : PyStr) : PyStr :=
if !rel.isEmpty then base ++ rel ++ ['/'] ++ f else base ++ f

/-- Folder-marker creation loop of upload_directory (lines 184-194): one
create_folder call per subdirectory, successes collected, exceptions swallowed
(responses, calls). -/
def createDirs (s : Store) (base rel : PyStr) : List PyStr → List PyStr × List RemoteCall
  | [] => ([], [])
  | d :: rest =>
    ((match (create_folder s (folderKey base rel d)).1 with
      | .ok v => v :: (createDirs s base rel rest).1
      | .exn _ => (createDirs s base rel rest).1),
     (create_folder s (folderKey base rel d)).2 ++ (createDirs s base rel rest).2)

/-- File-upload loop of upload_directory (lines 197-208): one upload_file call
per file, successes collected, exceptions caught and the failing local path
logged (responses, calls, logs). -/
def uploadFiles (fs : FS) (s : Store) (base lr rel : PyStr) :
    List PyStr → List PyStr × List RemoteCall × List PyStr
  | [] => ([], [], [])
  | f :: rest =>
    ((match (upload_file fs s (joinLocal lr f) (fileKey base rel f)).1 with
      | .ok v => v :: (uploadFiles fs s base lr rel rest).1
      | .exn _ => (uploadFiles fs s base lr rel rest).1),
     (upload_file fs s (joinLocal lr f) (fileKey base rel f)).2 ++
       (uploadFiles fs s base lr rel rest).2.1,
     (match (upload_file fs s (joinLocal lr f) (fileKey base rel f)).1 with
      | .ok _ => (uploadFiles fs s base lr rel rest).2.2
      | .exn _ => joinLocal lr f :: (uploadFiles fs s base lr rel rest).2.2))

/-- Body of upload_directory's walk loop (lines 177-208): for every walk triple
create the subdirectory markers, then upload the files. -/
def processWalk (fs : FS) (s : Store) (base : PyStr) :
    List WalkEntry → List PyStr × List RemoteCall × List PyStr
  | [] => ([], [], [])
  | w :: rest =>
    ((createDirs s base w.relPath w.dirs).1 ++
       (uploadFiles fs s base w.localRoot w.relPath w.files).1 ++
       (processWalk fs s base rest).1,
     (createDirs s base w.relPath w.dirs).2 ++
       (uploadFiles fs s base w.localRoot w.relPath w.files).2.1 ++
       (processWalk fs s base rest).2.1,
     (uploadFiles fs s base w.localRoot w.relPath w.files).2.2 ++
       (processWalk fs s base rest).2.2)

/-- Aggregate outcome of a batch operation: its result, the remote calls made,
and the diagnostics printed (recorded as the local paths they name). -/
structure Outcome (α : Type) where
  result : PyResult α
  calls : List RemoteCall
  logs : List PyStr
deriving DecidableEq

/-- upload_directory (lines 146-210): raise NotADirectoryError when the local
path is not a directory, before any remote call; normalize the base path;
create the base folder marker when the base path is nonempty, swallowing any
exception; then walk the tree, creating subdirectory markers (exceptions
swallowed) and uploading files (exceptions caught and logged). -/
def upload_directory (fs : FS) (s : Store) (localDir gcsBase : PyStr) :
    Outcome (List PyStr) :=
match fs localDir with
| .directory children =>
  ⟨.ok ((if !(normBasePath gcsBase).isEmpty then
           match (create_folder s (normBasePath gcsBase)).1 with
           | .ok v => [v]
           | .exn _ => []
         else []) ++
        (processWalk fs s (normBasePath gcsBase) (walk localDir [] children)).1),
   (if !(normBasePath gcsBase).isEmpty then (create_folder s (normBasePath gcsBase)).2
    else []) ++
     (processWalk fs s (normBasePath gcsBase) (walk localDir [] children)).2.1,
   (processWalk fs s (normBasePath gcsBase) (walk localDir [] children)).2.2⟩
| _ => ⟨.exn (.notADirectory localDir), [], []⟩

/-- One entry of the path mapping handed to upload_files_and_directories: the
results of .get on the keys local_path and gcs_path. -/
structure Mapping where
  localPath : Option PyStr
  gcsPath : Option PyStr

/-- Python falsiness of an optional string: absent or empty. -/
def pyFalsy : Option PyStr → Bool
  | none => true
  | some s => s.isEmpty

/-- upload_files_and_directories (lines 212-240): skip silently every entry
whose local_path or gcs_path is absent or empty; upload file entries with
upload_file, with no exception handling, so a raised exception aborts the
remaining entries; dispatch directory entries to upload_directory; print a
diagnostic for nonexistent paths and continue. -/
def upload_files_and_directories (fs : FS) (s : Store) :
    List Mapping → Outcome (List PyStr)
  | [] => ⟨.ok [], [], []⟩
  | m :: rest =>
    if pyFalsy m.localPath || pyFalsy m.gcsPath then
      upload_files_and_directories fs s rest
    else
      match fs (m.localPath.getD []) with
      | .file =>
        match upload_file fs s (m.localPath.getD []) (m.gcsPath.getD []) with
        | (.ok v, cs) =>
          match upload_files_and_directories fs s rest with
          | ⟨.ok l, cs2, ls⟩ => ⟨.ok (v :: l), cs ++ cs2, ls⟩
          | ⟨.exn e, cs2, ls⟩ => ⟨.exn e, cs ++ cs2, ls⟩
        | (.exn e, cs) => ⟨.exn e, cs, []⟩
      | .directory _ =>
        match upload_directory fs s (m.localPath.getD []) (m.gcsPath.getD []) with
        | ⟨.ok l, cs, ls⟩ =>
          match upload_files_and_directories fs s rest with
          | ⟨.ok l2, cs2, ls2⟩ => ⟨.ok (l ++ l2), cs ++ cs2, ls ++ ls2⟩
          | ⟨.exn e, cs2, ls2⟩ => ⟨.exn e, cs ++ cs2, ls ++ ls2⟩
        | ⟨.exn e, cs, ls⟩ => ⟨.exn e, cs, ls⟩
      | .missing =>
        match upload_files_and_directories fs s rest with
        | ⟨r, cs, ls⟩ => ⟨r, cs, m.localPath.getD [] :: ls⟩

/-- Aggregate deletion counts returned by delete_folder. -/
structure DeleteCounts where
  successful : Nat
  failed : Nat
deriving DecidableEq

/-- Per-object deletion loop of delete_folder (lines 290-295): delete each
listed object in order, counting successes and failures. -/
def deleteLoop (s : Store) : List PyStr → DeleteCounts × List RemoteCall
  | [] => (⟨0, 0⟩, [])
  | k :: rest =>
    ((if (delete_file s k).1 then
        ⟨(deleteLoop s rest).1.successful + 1, (deleteLoop s rest).1.failed⟩
      else
        ⟨(deleteLoop s rest).1.successful, (deleteLoop s rest).1.failed + 1⟩),
     (delete_file s k).2 ++ (deleteLoop s rest).2)

/-- delete_folder (lines 268-297): normalize the folder path, list everything
under it (a failed listing raises), then delete each listed object, returning
the counts of successful and failed deletions. -/
def delete_folder (s : Store) (p : PyStr) :
    PyResult DeleteCounts × List RemoteCall :=
match (list_bucket_contents s (ensureSlash p)).1 with
| .ok objs =>
  (.ok (deleteLoop s objs).1,
   (list_bucket_contents s (ensureSlash p)).2 ++ (deleteLoop s objs).2)
| .exn e => (.exn e, (list_bucket_contents s (ensureSlash p)).2)

/-! Helper lemmas about the path normalizers. -/

lemma endsWithChar_eq_true_iff (p : PyStr) (c : Char) :
    endsWithChar p c = true ↔ p.getLast? = some c := by
  simp [endsWithChar]

lemma endsWithChar_eq_false_iff (p : PyStr) (c : Char) :
    endsWithChar p c = false ↔ p.getLast? ≠ some c := by
  simp [endsWithChar]

lemma ensureSlash_endsWith (p : PyStr) : endsWithChar (ensureSlash p) '/' = true := by
  unfold ensureSlash
  split
  · simp [endsWithChar, List.getLast?_concat]
  · rename_i h
    simpa using h

lemma normBasePath_endsWith (p : PyStr) (h : p ≠ []) :
    endsWithChar (normBasePath p) '/' = true := by
  unfold normBasePath
  split
  · simp [endsWithChar, List.getLast?_concat]
  · rename_i hc
    simp [List.isEmpty_eq_false.mpr h] at hc
    simpa using hc

/-- C3 (amended): the folder-path normalization shared by create_folder,
list_folder_contents and delete_folder, and the base-path normalization of
upload_directory, each produce a key ending with a trailing slash
(upload_directory's variant only for nonempty input, since it maps the empty
path to itself), both normalizations are idempotent, and when the input does
not already end with a slash the result ends with exactly one. -/
theorem c3_normalization_amended (p : PyStr) :
    endsWithChar (ensureSlash p) '/' = true ∧
    ensureSlash (ensureSlash p) = ensureSlash p ∧
    (endsWithChar p '/' = false → exactlyOneTrailingSlash (ensureSlash p)) ∧
    (p ≠ [] → endsWithChar (normBasePath p) '/' = true) ∧
    normBasePath (normBasePath p) = normBasePath p := by
  refine ⟨ensureSlash_endsWith p, ?_, ?_, normBasePath_endsWith p, ?_⟩
  · conv_lhs => rw [ensureSlash]
    rw [ensureSlash_endsWith p]
    simp
  · intro h
    have h2 : ensureSlash p = p ++ ['/'] := by rw [ensureSlash, h]; rfl
    rw [h2]
    exact ⟨by simp [List.getLast?_concat],
           by rw [List.dropLast_concat]; exact (endsWithChar_eq_false_iff p '/').mp h⟩
  · by_cases hp : p = []
    · subst hp; rfl
    · conv_lhs => rw [normBasePath]
      rw [normBasePath_endsWith p hp]
      simp

/-- C3 counterexample: the normalization maps a path already ending in two
slashes to itself, so the result does not end with exactly one trailing
slash. -/
theorem c3_counterexample :
    ensureSlash ('a' :: '/' :: '/' :: []) = 'a' :: '/' :: '/' :: [] ∧
    ¬ exactlyOneTrailingSlash (ensureSlash ('a' :: '/' :: '/' :: [])) := by
  decide

/-- C3 witness: the amended theorem instantiated at the path "a". -/
theorem c3_witness :
    exactlyOneTrailingSlash (ensureSlash ('a' :: [])) ∧
    endsWithChar (normBasePath ('a' :: [])) '/' = true :=
  ⟨(c3_normalization_amended ('a' :: [])).2.2.1 (by decide),
   (c3_normalization_amended ('a' :: [])).2.2.2.1 (by decide)⟩

lemma noDoubleSlash_iff_chain (s : PyStr) :
    noDoubleSlash s ↔ List.Chain' (fun a b => ¬(a = '/' ∧ b = '/')) s := by
  induction s with
  | nil => simp [noDoubleSlash, hasDoubleSlash]
  | cons a t ih =>
    cases t with
    | nil => simp [noDoubleSlash, hasDoubleSlash]
    | cons b u =>
      rw [List.chain'_cons, ← ih]
      simp [noDoubleSlash, hasDoubleSlash]

lemma noDoubleSlash_normBasePath (p : PyStr) (h : noDoubleSlash p) :
    noDoubleSlash (normBasePath p) := by
  unfold normBasePath
  split
  · rename_i hc
    rw [noDoubleSlash_iff_chain, List.chain'_append]
    refine ⟨(noDoubleSlash_iff_chain p).mp h, List.chain'_singleton _, ?_⟩
    intro x hx y hy hcon
    have h2 : endsWithChar p '/' = false := by
      simp [Bool.and_eq_true] at hc
      simpa using hc.2
    exact (endsWithChar_eq_false_iff p '/').mp h2 (by rw [Option.mem_def] at hx; rw [hx, hcon.1])
  · exact h

/-- C8 (amended): remote keys are built by appending the relative segment to
the slash-normalized destination base; an empty base yields the bare segment,
the base "pre" with segment "a/b" yields "pre/a/b", and no double slash is
introduced provided neither input already holds one and the segment does not
start with a slash. -/
theorem c8_joinKey_amended :
    joinKey [] ('a' :: '/' :: 'b' :: []) = 'a' :: '/' :: 'b' :: [] ∧
    joinKey ('p' :: 'r' :: 'e' :: []) ('a' :: '/' :: 'b' :: []) =
      'p' :: 'r' :: 'e' :: '/' :: 'a' :: '/' :: 'b' :: [] ∧
    (∀ base seg : PyStr, noDoubleSlash base → noDoubleSlash seg →
      startsWithSlash seg = false → noDoubleSlash (joinKey base seg)) := by
  refine ⟨by decide, by decide, ?_⟩
  intro base seg hb hs hstart
  unfold joinKey
  rw [noDoubleSlash_iff_chain, List.chain'_append]
  refine ⟨(noDoubleSlash_iff_chain _).mp (noDoubleSlash_normBasePath base hb),
          (noDoubleSlash_iff_chain seg).mp hs, ?_⟩
  intro x hx y hy hcon
  have h2 : seg.head? ≠ some '/' := by simpa [startsWithSlash] using hstart
  exact h2 (by rw [Option.mem_def] at hy; rw [hy, hcon.2])

/-- C8 counterexample: joining the base "pre" with the segment "/a", neither of
which holds a double slash, produces "pre//a", which does. -/
theorem c8_counterexample :
    noDoubleSlash ('p' :: 'r' :: 'e' :: []) ∧
    noDoubleSlash ('/' :: 'a' :: []) ∧
    joinKey ('p' :: 'r' :: 'e' :: []) ('/' :: 'a' :: []) =
      'p' :: 'r' :: 'e' :: '/' :: '/' :: 'a' :: [] ∧
    ¬ noDoubleSlash (joinKey ('p' :: 'r' :: 'e' :: []) ('/' :: 'a' :: [])) := by
  decide

/-- C8 witness: the amended theorem applied to the base "pre/", which already
ends with a slash, and the segment "a/b". -/
theorem c8_witness :
    noDoubleSlash (joinKey ('p' :: 'r' :: 'e' :: '/' :: []) ('a' :: '/' :: 'b' :: [])) :=
  c8_joinKey_amended.2.2 ('p' :: 'r' :: 'e' :: '/' :: []) ('a' :: '/' :: 'b' :: [])
    (by decide) (by decide) (by decide)

/-- C5: upload_file on a local path that is not a regular file raises
FileNotFoundError with zero remote calls made, and that error is a different
constructor from the remote-call failure, so the two are distinguishable. -/
theorem c5_upload_file_precondition (fs : FS) (s : Store) (lp gp : PyStr)
    (h : fs lp ≠ PathKind.file) :
    upload_file fs s lp gp = (.exn (.fileNotFound lp), []) ∧
    (∀ st : Nat, Err.fileNotFound lp ≠ Err.remoteFailed st) := by
  constructor
  · unfold upload_file
    cases hk : fs lp
    · exact absurd hk h
    · rfl
    · rfl
  · intro st hcon
    exact Err.noConfusion hcon

/-- C5 witness: the theorem applied to an empty filesystem. -/
theorem c5_witness :
    upload_file (fun _ => PathKind.missing) ⟨fun _ => 200, fun _ => []⟩
        ('x' :: []) ('k' :: []) =
      (.exn (.fileNotFound ('x' :: [])), []) ∧
    (∀ st : Nat, Err.fileNotFound ('x' :: []) ≠ Err.remoteFailed st) :=
  c5_upload_file_precondition (fun _ => PathKind.missing) ⟨fun _ => 200, fun _ => []⟩
    ('x' :: []) ('k' :: []) (fun hcon => PathKind.noConfusion hcon)

/-- C10: an entry of the path mapping whose local_path or gcs_path is absent or
empty is skipped silently: dropping it from the mapping, wherever it stands,
leaves the whole outcome (results, remote calls and diagnostics) unchanged. -/
theorem c10_falsy_entries_skipped (fs : FS) (s : Store) (m : Mapping)
    (h : (pyFalsy m.localPath || pyFalsy m.gcsPath) = true)
    (pre post : List Mapping) :
    upload_files_and_directories fs s (pre ++ m :: post) =
      upload_files_and_directories fs s (pre ++ post) := by
  induction pre with
  | nil =>
    simp only [List.nil_append]
    rw [upload_files_and_directories, if_pos h]
  | cons a t ih =>
    simp only [List.cons_append]
    simp only [upload_files_and_directories]
    rw [ih]

/-- C10 witness: an entry with an absent local_path is dropped from a
singleton mapping. -/
theorem c10_witness :
    upload_files_and_directories (fun _ => PathKind.missing)
        ⟨fun _ => 200, fun _ => []⟩ ([] ++ ⟨none, some ('g' :: [])⟩ :: []) =
      upload_files_and_directories (fun _ => PathKind.missing)
        ⟨fun _ => 200, fun _ => []⟩ ([] ++ []) :=
  c10_falsy_entries_skipped (fun _ => PathKind.missing) ⟨fun _ => 200, fun _ => []⟩
    ⟨none, some ('g' :: [])⟩ (by decide) [] []

lemma deleteLoop_counts (s : Store) (l : List PyStr) :
    (deleteLoop s l).1.successful + (deleteLoop s l).1.failed = l.length := by
  induction l with
  | nil => rfl
  | cons k rest ih =>
    by_cases hd : (delete_file s k).1
    · simp [deleteLoop, hd]
      omega
    · simp [deleteLoop, hd]
      omega

/-- C9: when the listing succeeds, delete_folder returns counts that add up to
the number of listed objects, and it never raises: an individual deletion
failure only increments the failed count, because delete_file returns a
boolean; only a failed listing makes delete_folder raise. -/
theorem c9_delete_folder_aggregate (s : Store) (p : PyStr) :
    (s.status (.listObjects (ensureSlash p)) = 200 →
      ∃ c : DeleteCounts, (delete_folder s p).1 = .ok c ∧
        c.successful + c.failed = (s.items (ensureSlash p)).length) ∧
    (s.status (.listObjects (ensureSlash p)) ≠ 200 →
      (delete_folder s p).1 =
        .exn (.remoteFailed (s.status (.listObjects (ensureSlash p))))) := by
  constructor
  · intro h
    refine ⟨(deleteLoop s (s.items (ensureSlash p))).1, ?_, deleteLoop_counts s _⟩
    simp [delete_folder, list_bucket_contents, h]
  · intro h
    simp [delete_folder, list_bucket_contents, h]

/-- C9 witness: the theorem applied to a store whose listing of "f/" succeeds
with two objects. -/
theorem c9_witness :
    ∃ c : DeleteCounts,
      (delete_folder ⟨fun _ => 200, fun _ => [('a' :: []), ('b' :: [])]⟩ ('f' :: [])).1 =
        .ok c ∧
      c.successful + c.failed =
        ((⟨fun _ => 200, fun _ => [('a' :: []), ('b' :: [])]⟩ : Store).items
          (ensureSlash ('f' :: []))).length :=
  (c9_delete_folder_aggregate ⟨fun _ => 200, fun _ => [('a' :: []), ('b' :: [])]⟩
    ('f' :: [])).1 (by decide)

/-- C4: on a folder whose normalized prefix lists exactly the keys "f/", "f/a"
and "f/b", delete_folder issues exactly one delete call per listed key after
the listing call; a single delete reports success exactly when the store
answers 200 or 204; all three succeeding yields counts successful=3, failed=0,
and exactly one failing yields successful=2, failed=1. -/
theorem c4_delete_folder_counts (s : Store) (p : PyStr)
    (hnorm : ensureSlash p = 'f' :: '/' :: [])
    (hls : s.status (.listObjects ('f' :: '/' :: [])) = 200)
    (hitems : s.items ('f' :: '/' :: []) =
      [('f' :: '/' :: []), ('f' :: '/' :: 'a' :: []), ('f' :: '/' :: 'b' :: [])]) :
    (delete_folder s p).2 =
      [.listObjects ('f' :: '/' :: []), .deleteObject ('f' :: '/' :: []),
       .deleteObject ('f' :: '/' :: 'a' :: []), .deleteObject ('f' :: '/' :: 'b' :: [])] ∧
    (∀ k : PyStr, (delete_file s k).1 = true ↔
      (s.status (.deleteObject k) = 200 ∨ s.status (.deleteObject k) = 204)) ∧
    (((delete_file s ('f' :: '/' :: [])).1 = true ∧
      (delete_file s ('f' :: '/' :: 'a' :: [])).1 = true ∧
      (delete_file s ('f' :: '/' :: 'b' :: [])).1 = true) →
      (delete_folder s p).1 = .ok ⟨3, 0⟩) ∧
    ((¬(delete_file s ('f' :: '/' :: [])).1 = true ∧
      (delete_file s ('f' :: '/' :: 'a' :: [])).1 = true ∧
      (delete_file s ('f' :: '/' :: 'b' :: [])).1 = true) →
      (delete_folder s p).1 = .ok ⟨2, 1⟩) ∧
    (((delete_file s ('f' :: '/' :: [])).1 = true ∧
      ¬(delete_file s ('f' :: '/' :: 'a' :: [])).1 = true ∧
      (delete_file s ('f' :: '/' :: 'b' :: [])).1 = true) →
      (delete_folder s p).1 = .ok ⟨2, 1⟩) ∧
    (((delete_file s ('f' :: '/' :: [])).1 = true ∧
      (delete_file s ('f' :: '/' :: 'a' :: [])).1 = true ∧
      ¬(delete_file s ('f' :: '/' :: 'b' :: [])).1 = true) →
      (delete_folder s p).1 = .ok ⟨2, 1⟩) := by
  refine ⟨?_, ?_, ?_, ?_, ?_, ?_⟩
  · simp [delete_folder, hnorm, list_bucket_contents, hls, hitems, deleteLoop,
          delete_file]
  · intro k
    simp [delete_file]
  · rintro ⟨h1, h2, h3⟩
    simp [delete_folder, hnorm, list_bucket_contents, hls, hitems, deleteLoop,
          h1, h2, h3]
  · rintro ⟨h1, h2, h3⟩
    rw [Bool.not_eq_true] at h1
    simp [delete_folder, hnorm, list_bucket_contents, hls, hitems, deleteLoop,
          h1, h2, h3]
  · rintro ⟨h1, h2, h3⟩
    rw [Bool.not_eq_true] at h2
    simp [delete_folder, hnorm, list_bucket_contents, hls, hitems, deleteLoop,
          h1, h2, h3]
  · rintro ⟨h1, h2, h3⟩
    rw [Bool.not_eq_true] at h3
    simp [delete_folder, hnorm, list_bucket_contents, hls, hitems, deleteLoop,
          h1, h2, h3]

/-- C4 witness: a store listing the three keys under "f/" whose delete of
"f/a" answers 403 while the others answer 204, giving successful=2, failed=1. -/
theorem c4_witness :
    (delete_folder
        ⟨fun c => match c with
          | .deleteObject k => if k = ('f' :: '/' :: 'a' :: []) then 403 else 204
          | _ => 200,
         fun _ => [('f' :: '/' :: []), ('f' :: '/' :: 'a' :: []), ('f' :: '/' :: 'b' :: [])]⟩
        ('f' :: [])).1 = .ok ⟨2, 1⟩ :=
  (c4_delete_folder_counts
    ⟨fun c => match c with
      | .deleteObject k => if k = ('f' :: '/' :: 'a' :: []) then 403 else 204
      | _ => 200,
     fun _ => [('f' :: '/' :: []), ('f' :: '/' :: 'a' :: []), ('f' :: '/' :: 'b' :: [])]⟩
    ('f' :: []) (by decide) (by decide) (by decide)).2.2.2.2.1
    ⟨by decide, by decide, by decide⟩

/-- C1 (amended): upload_directory swallows or logs per-item errors and always
returns its aggregate; delete_folder turns per-item delete failures into counts
and returns normally whenever the listing succeeds; but
upload_files_and_directories, while it skips nonexistent paths with a
diagnostic, propagates a failed file-entry upload as a thrown error, aborting
the remaining entries. -/
theorem c1_batch_error_policy_amended :
    (∀ (fs : FS) (s : Store) (localDir gcsBase : PyStr) (children : List Entry),
      fs localDir = PathKind.directory children →
      (upload_directory fs s localDir gcsBase).result.isOk = true) ∧
    (∀ (s : Store) (p : PyStr),
      s.status (.listObjects (ensureSlash p)) = 200 →
      ((delete_folder s p).1).isOk = true) ∧
    (∀ (fs : FS) (s : Store) (lp gp : PyStr) (rest : List Mapping),
      fs lp = PathKind.file → lp ≠ [] → gp ≠ [] →
      s.status (.uploadObject gp) ≠ 200 → s.status (.uploadObject gp) ≠ 201 →
      upload_files_and_directories fs s (⟨some lp, some gp⟩ :: rest) =
        ⟨.exn (.remoteFailed (s.status (.uploadObject gp))), [.uploadObject gp], []⟩) := by
  refine ⟨?_, ?_, ?_⟩
  · intro fs s localDir gcsBase children h
    simp [upload_directory, h, PyResult.isOk]
  · intro s p h
    simp [delete_folder, list_bucket_contents, h, PyResult.isOk]
  · intro fs s lp gp rest h hlp hgp h4 h5
    simp [upload_files_and_directories, pyFalsy, List.isEmpty_eq_false.mpr hlp,
          List.isEmpty_eq_false.mpr hgp, h, upload_file, h4, h5]

/-- C1 counterexample: with two file entries, a failed upload of the first
propagates out of upload_files_and_directories as a thrown error, so the
second entry is never processed and no aggregate is returned. -/
theorem c1_counterexample :
    upload_files_and_directories
        (fun p => if p = ('x' :: []) then PathKind.file
                  else if p = ('y' :: []) then PathKind.file else PathKind.missing)
        ⟨fun c => if c = RemoteCall.uploadObject ('k' :: []) then 500 else 200,
         fun _ => []⟩
        [⟨some ('x' :: []), some ('k' :: [])⟩, ⟨some ('y' :: []), some ('m' :: [])⟩] =
      ⟨.exn (.remoteFailed 500), [.uploadObject ('k' :: [])], []⟩ := by
  decide

/-- C1 witness: the amended theorem instantiated at concrete stores and
filesystems for each of its three parts. -/
theorem c1_witness :
    (upload_directory (fun _ => PathKind.directory []) ⟨fun _ => 200, fun _ => []⟩
        ('d' :: []) []).result.isOk = true ∧
    ((delete_folder ⟨fun _ => 200, fun _ => []⟩ ('f' :: [])).1).isOk = true ∧
    upload_files_and_directories (fun _ => PathKind.file)
        ⟨fun _ => 500, fun _ => []⟩ [⟨some ('x' :: []), some ('k' :: [])⟩] =
      ⟨.exn (.remoteFailed 500), [.uploadObject ('k' :: [])], []⟩ :=
  ⟨c1_batch_error_policy_amended.1 _ _ ('d' :: []) [] [] rfl,
   c1_batch_error_policy_amended.2.1 _ ('f' :: []) rfl,
   c1_batch_error_policy_amended.2.2 _ _ ('x' :: []) ('k' :: []) [] rfl
     (by decide) (by decide) (by decide) (by decide)⟩

/-- C7: a batch of one entry whose local path is a regular file and one whose
local path does not exist yields, in either order, exactly one successful
result (for the valid entry, whose upload call succeeds), exactly one upload
call, and a diagnostic naming the nonexistent path, which never aborts the
valid entry's processing. -/
theorem c7_mixed_batch (fs : FS) (s : Store) (lv gv lb gb : PyStr)
    (hv : fs lv = PathKind.file) (hb : fs lb = PathKind.missing)
    (hlv : lv ≠ []) (hgv : gv ≠ []) (hlb : lb ≠ []) (hgb : gb ≠ [])
    (hst : s.status (.uploadObject gv) = 200 ∨ s.status (.uploadObject gv) = 201) :
    upload_files_and_directories fs s [⟨some lv, some gv⟩, ⟨some lb, some gb⟩] =
      ⟨.ok (gv :: []), [.uploadObject gv], lb :: []⟩ ∧
    upload_files_and_directories fs s [⟨some lb, some gb⟩, ⟨some lv, some gv⟩] =
      ⟨.ok (gv :: []), [.uploadObject gv], lb :: []⟩ := by
  rcases hst with h | h <;>
    exact ⟨by simp [upload_files_and_directories, pyFalsy, upload_file, hv, hb, h,
                    List.isEmpty_eq_false.mpr hlv, List.isEmpty_eq_false.mpr hgv,
                    List.isEmpty_eq_false.mpr hlb, List.isEmpty_eq_false.mpr hgb],
           by simp [upload_files_and_directories, pyFalsy, upload_file, hv, hb, h,
                    List.isEmpty_eq_false.mpr hlv, List.isEmpty_eq_false.mpr hgv,
                    List.isEmpty_eq_false.mpr hlb, List.isEmpty_eq_false.mpr hgb]⟩

/-- C7 witness: the theorem applied to a filesystem holding the file "v" and
nothing at "b", with a store answering 200. -/
theorem c7_witness :
    upload_files_and_directories
        (fun p => if p = ('v' :: []) then PathKind.file else PathKind.missing)
        ⟨fun _ => 200, fun _ => []⟩
        [⟨some ('v' :: []), some ('g' :: [])⟩, ⟨some ('b' :: []), some ('h' :: [])⟩] =
      ⟨.ok (('g' :: []) :: []), [.uploadObject ('g' :: [])], ('b' :: []) :: []⟩ :=
  (c7_mixed_batch
    (fun p => if p = ('v' :: []) then PathKind.file else PathKind.missing)
    ⟨fun _ => 200, fun _ => []⟩ ('v' :: []) ('g' :: []) ('b' :: []) ('h' :: [])
    rfl rfl (by decide) (by decide) (by decide) (by decide) (Or.inl rfl)).1

/-- Root entries of a directory holding exactly the files a.txt and sub/b.txt,
file entry first. -/
def c2tree1 : List Entry :=
[.file "a.txt".data, .dir "sub".data [.file "b.txt".data]]

/-- Root entries of the same directory with the subdirectory entry first. -/
def c2tree2 : List Entry :=
[.dir "sub".data [.file "b.txt".data], .file "a.txt".data]

/-- C2: on every local directory whose subtree holds exactly the files a.txt
and sub/b.txt (either order of the two root entries), upload_directory with
destination prefix "dst" issues exactly the folder-marker creation calls
"dst/" and "dst/sub/" and exactly the two object-upload calls "dst/a.txt" and
"dst/sub/b.txt", and no other remote calls, whatever the store answers. -/
theorem c2_upload_directory_calls (fs : FS) (s : Store) (localDir : PyStr)
    (hdir : fs localDir = PathKind.directory c2tree1 ∨
            fs localDir = PathKind.directory c2tree2)
    (hfa : fs (joinLocal localDir "a.txt".data) = PathKind.file)
    (hfb : fs (joinLocal (joinLocal localDir "sub".data) "b.txt".data) = PathKind.file) :
    (upload_directory fs s localDir "dst".data).calls =
      [.createFolder "dst/".data, .createFolder "dst/sub/".data,
       .uploadObject "dst/a.txt".data, .uploadObject "dst/sub/b.txt".data] := by
  have h1 : normBasePath "dst".data = "dst/".data := by decide
  have h2 : ensureSlash "dst/".data = "dst/".data := by decide
  have h3 : folderKey "dst/".data [] "sub".data = "dst/sub/".data := by decide
  have h4 : ensureSlash "dst/sub/".data = "dst/sub/".data := by decide
  have h5 : fileKey "dst/".data [] "a.txt".data = "dst/a.txt".data := by decide
  have h6 : joinRel [] "sub".data = "sub".data := by decide
  have h7 : fileKey "dst/".data "sub".data "b.txt".data = "dst/sub/b.txt".data := by
    decide
  have h8 : ("dst/".data).isEmpty = false := by decide
  rcases hdir with h | h <;>
  · simp only [upload_directory, h, h1]
    simp [walk, walkSubs, processWalk, createDirs, uploadFiles, create_folder,
          upload_file, hfa, hfb, c2tree1, c2tree2, dirNames, fileNames,
          h2, h3, h4, h5, h6, h7, h8]

/-- C2 witness: the theorem applied to a concrete filesystem rooted at "d". -/
theorem c2_witness :
    (upload_directory
        (fun p =>
          if p = "d".data then PathKind.directory c2tree1
          else if p = "d/a.txt".data then PathKind.file
          else if p = "d/sub/b.txt".data then PathKind.file
          else PathKind.missing)
        ⟨fun _ => 200, fun _ => []⟩ "d".data "dst".data).calls =
      [.createFolder "dst/".data, .createFolder "dst/sub/".data,
       .uploadObject "dst/a.txt".data, .uploadObject "dst/sub/b.txt".data] :=
  c2_upload_directory_calls
    (fun p =>
      if p = "d".data then PathKind.directory c2tree1
      else if p = "d/a.txt".data then PathKind.file
      else if p = "d/sub/b.txt".data then PathKind.file
      else PathKind.missing)
    ⟨fun _ => 200, fun _ => []⟩ "d".data (Or.inl rfl) rfl rfl

/-! Helper lemmas for C6: the remote calls of the traversal do not depend on
the store's answers, and failed file uploads are logged. -/

lemma create_folder_calls (s : Store) (p : PyStr) :
    (create_folder s p).2 = [.createFolder (ensureSlash p)] := rfl

lemma upload_file_calls_indep (fs : FS) (s s2 : Store) (lp gp : PyStr) :
    (upload_file fs s lp gp).2 = (upload_file fs s2 lp gp).2 := by
  unfold upload_file
  cases fs lp <;> rfl

lemma createDirs_calls_indep (s s2 : Store) (base rel : PyStr) (ds : List PyStr) :
    (createDirs s base rel ds).2 = (createDirs s2 base rel ds).2 := by
  induction ds with
  | nil => rfl
  | cons d rest ih =>
    simp only [createDirs]
    rw [create_folder_calls, create_folder_calls, ih]

lemma uploadFiles_calls_indep (fs : FS) (s s2 : Store) (base lr rel : PyStr)
    (fl : List PyStr) :
    (uploadFiles fs s base lr rel fl).2.1 = (uploadFiles fs s2 base lr rel fl).2.1 := by
  induction fl with
  | nil => rfl
  | cons f rest ih =>
    simp only [uploadFiles]
    rw [upload_file_calls_indep fs s s2, ih]

lemma processWalk_calls_indep (fs : FS) (s s2 : Store) (base : PyStr)
    (ws : List WalkEntry) :
    (processWalk fs s base ws).2.1 = (processWalk fs s2 base ws).2.1 := by
  induction ws with
  | nil => rfl
  | cons w rest ih =>
    simp only [processWalk]
    rw [createDirs_calls_indep s s2, uploadFiles_calls_indep fs s s2, ih]

lemma uploadFiles_logs_mem (fs : FS) (s : Store) (base lr rel : PyStr)
    (fl : List PyStr) (f : PyStr) (hf : f ∈ fl)
    (hfail : (upload_file fs s (joinLocal lr f) (fileKey base rel f)).1.isOk = false) :
    joinLocal lr f ∈ (uploadFiles fs s base lr rel fl).2.2 := by
  induction fl with
  | nil => cases hf
  | cons g rest ih =>
    rcases List.mem_cons.mp hf with hg | hg
    · subst hg
      cases hu : (upload_file fs s (joinLocal lr f) (fileKey base rel f)).1 with
      | ok v => rw [hu] at hfail; cases hfail
      | exn e => simp [uploadFiles, hu]
    · cases hu : (upload_file fs s (joinLocal lr g) (fileKey base rel g)).1 with
      | ok v => simpa [uploadFiles, hu] using ih hg
      | exn e => simp [uploadFiles, hu]; exact Or.inr (ih hg)

lemma processWalk_logs_mem (fs : FS) (s : Store) (base : PyStr)
    (ws : List WalkEntry) (w : WalkEntry) (hw : w ∈ ws) (f : PyStr)
    (hf : f ∈ w.files)
    (hfail : (upload_file fs s (joinLocal w.localRoot f)
      (fileKey base w.relPath f)).1.isOk = false) :
    joinLocal w.localRoot f ∈ (processWalk fs s base ws).2.2 := by
  induction ws with
  | nil => cases hw
  | cons w0 rest ih =>
    rcases List.mem_cons.mp hw with hg | hg
    · subst hg
      simp only [processWalk]
      exact List.mem_append_left _ (uploadFiles_logs_mem fs s base w.localRoot
        w.relPath w.files f hf hfail)
    · simp only [processWalk]
      exact List.mem_append_right _ (ih hg)

/-- C6: during upload_directory's traversal, no store answer makes the call
raise (folder-marker failures are swallowed) and the sequence of remote calls
is the same whatever statuses the store answers, so no per-item failure aborts
the remaining items; moreover every walked file whose upload does not succeed
has its local path logged. -/
theorem c6_traversal_error_policy (fs : FS) (s s2 : Store)
    (localDir gcsBase : PyStr) (children : List Entry)
    (h : fs localDir = PathKind.directory children) :
    (upload_directory fs s localDir gcsBase).result.isOk = true ∧
    (upload_directory fs s localDir gcsBase).calls =
      (upload_directory fs s2 localDir gcsBase).calls ∧
    (∀ w ∈ walk localDir [] children, ∀ f ∈ w.files,
      (upload_file fs s (joinLocal w.localRoot f)
        (fileKey (normBasePath gcsBase) w.relPath f)).1.isOk = false →
      joinLocal w.localRoot f ∈ (upload_directory fs s localDir gcsBase).logs) := by
  refine ⟨?_, ?_, ?_⟩
  · simp [upload_directory, h, PyResult.isOk]
  · simp only [upload_directory, h]
    rw [create_folder_calls, create_folder_calls,
        processWalk_calls_indep fs s s2]
  · intro w hw f hf hfail
    simp only [upload_directory, h]
    exact processWalk_logs_mem fs s (normBasePath gcsBase) _ w hw f hf hfail

/-- C6 witness: a directory holding one file that is missing from the
filesystem when its upload starts, so the upload fails and is logged while the
operation still returns its aggregate. -/
theorem c6_witness :
    (upload_directory (fun p => if p = "d".data then
        PathKind.directory [.file "a.txt".data] else PathKind.missing)
      ⟨fun _ => 200, fun _ => []⟩ "d".data "b".data).result.isOk = true ∧
    joinLocal "d".data "a.txt".data ∈
      (upload_directory (fun p => if p = "d".data then
          PathKind.directory [.file "a.txt".data] else PathKind.missing)
        ⟨fun _ => 200, fun _ => []⟩ "d".data "b".data).logs :=
  ⟨(c6_traversal_error_policy
      (fun p => if p = "d".data then PathKind.directory [.file "a.txt".data]
       else PathKind.missing)
      ⟨fun _ => 200, fun _ => []⟩ ⟨fun _ => 500, fun _ => []⟩ "d".data "b".data
      [.file "a.txt".data] rfl).1,
   (c6_traversal_error_policy
      (fun p => if p = "d".data then PathKind.directory [.file "a.txt".data]
       else PathKind.missing)
      ⟨fun _ => 200, fun _ => []⟩ ⟨fun _ => 500, fun _ => []⟩ "d".data "b".data
      [.file "a.txt".data] rfl).2.2
     ⟨"d".data, [], [], ["a.txt".data]⟩
     (by simp [walk, walkSubs, dirNames, fileNames])
     "a.txt".data (by simp) (by decide)⟩
